import Mathlib

/-
Verification of the usage-aggregation and time-bucketing pipeline of the
Streamlit usage dashboard (src/pages/Usage_Summary.py, src/Overview.py).

Modelling conventions.
* Timestamps are minutes since 2024-01-01T00:00 (timezone-naive), as `Int`;
  a missing / unparseable timestamp (pandas `NaT`) is `none : Option Int`.
* One day is 1440 minutes.  pandas `Timedelta.days` is the floor of the
  timedelta in days, i.e. `Int.fdiv · 1440`; Python `//` is `Int.fdiv`.
* Dataframes are lists of rows; a grouped count is the length of a filter.
* Money-free exact arithmetic uses `ℚ` where the Python code uses floats.
-/

/-! ### Calendar constants (minutes since 2024-01-01T00:00) -/

/-- 2024-12-01T00:00 (day 335 of 2024, a leap year). -/
def mDec1_2024 : Int := 335 * 1440

/-- 2025-01-01T00:00 (day 366). -/
def mJan1_2025 : Int := 366 * 1440

/-- 2025-01-02T00:00. -/
def mJan2_2025 : Int := 367 * 1440

/-- 2025-03-01T00:00. -/
def mMar1_2025 : Int := 425 * 1440

/-- 2025-03-08T00:00. -/
def mMar8_2025 : Int := 432 * 1440

/-- 2025-05-01T00:00. -/
def mMay1_2025 : Int := 486 * 1440

/-- 2025-06-10T00:00. -/
def mJun10_2025 : Int := 526 * 1440

/-- 2025-06-15T12:00. -/
def mJun15Noon_2025 : Int := 531 * 1440 + 720

/-! ### Rolling 4-week bucketing (Usage_Summary.py lines 629-652) -/

/-- `pd.Timestamp.now().normalize() + pd.Timedelta(hours=12)` (line 631):
midnight of the current day plus 12 hours, i.e. the current day at midday. -/
def normalizeNoon (t : Int) : Int := t.fdiv 1440 * 1440 + 720

/-- The closed window `(start, end)` of minutes for week `k` (k = 1..4) of the
`week_ranges` dict (lines 634-639): week4 = `[now-6d, now]`,
week3 = `[now-13d, now-7d]`, week2 = `[now-20d, now-14d]`,
week1 = `[now-27d, now-21d]`. -/
def weekWindow (anchor k : Int) : Int × Int :=
  (anchor - (7 * (4 - k) + 6) * 1440, anchor - 7 * (4 - k) * 1440)

/-- Membership of a timestamp in week `k`'s window (`start <= date <= end`). -/
def inWindow (anchor k d : Int) : Prop :=
  (weekWindow anchor k).1 ≤ d ∧ d ≤ (weekWindow anchor k).2

/-- Label of week `k`. -/
def weekLabel (k : Int) : String :=
  if k = 1 then "week1" else if k = 2 then "week2"
  else if k = 3 then "week3" else "week4"

/-- `assign_week_bucket` (lines 642-649): `None` for a missing timestamp,
otherwise the first window of the `week_ranges` dict (iteration order
week4, week3, week2, week1) containing the date, else `None`. -/
def assign_week_bucket : Int → Option Int → Option String
  | _, none => none
  | anchor, some d =>
    if anchor - 6 * 1440 ≤ d ∧ d ≤ anchor then some "week4"
    else if anchor - 13 * 1440 ≤ d ∧ d ≤ anchor - 7 * 1440 then some "week3"
    else if anchor - 20 * 1440 ≤ d ∧ d ≤ anchor - 14 * 1440 then some "week2"
    else if anchor - 27 * 1440 ≤ d ∧ d ≤ anchor - 21 * 1440 then some "week1"
    else none

/-! ### Trial-relative bucketing (Usage_Summary.py lines 654-664) -/

/-- The numeric trial week of a valid timestamp `c` for trial start `t`
(lines 656-660): `(created_at - trial_start_date).dt.days // 7 + 1`, with any
value `<= 1` set to `1`. -/
def week_from_trial_num (t c : Int) : Int :=
  if ((c - t).fdiv 1440).fdiv 7 + 1 ≤ 1 then 1
  else ((c - t).fdiv 1440).fdiv 7 + 1

/-- The trial-week label of an event (lines 656-664).  A missing timestamp
gives a `NaN` week, which `fillna(1)` (line 663) turns into week 1, so such an
event is labelled `"Trial Week 1"` rather than left unbucketed. -/
def week_from_trial : Int → Option Int → String
  | _, none => "Trial Week 1"
  | t, some c => "Trial Week " ++ toString (week_from_trial_num t c)

/-- `df_active_org['trial_start_date'].dt.year == 2024` (line 368): with the
2024-01-01 epoch, the timestamps of year 2024 are exactly `[0, 366*1440)`. -/
def dtYear2024 (t : Int) : Bool := decide (0 ≤ t ∧ t < 366 * 1440)

/-- The per-organization start date used by the daily usage time-series
(lines 362-368): on the copy `df_active_org`, a `trial_start_date` of year
2024 is replaced by `pd.Timestamp('2025-01-01')`. -/
def chartTrialStart (recorded : Int) : Int :=
  if dtYear2024 recorded then mJan1_2025 else recorded

/-- Trial-week labelling of an organization's events (line 656): it reads
`df_usage_org['trial_start_date']`, the recorded trial start (line 166),
which the year-2024 replacement on the copy `df_active_org` does not touch. -/
def orgWeekLabel (recorded : Int) (c : Option Int) : String :=
  week_from_trial recorded c

/-! ### Rollup engine (Usage_Summary.py lines 666-715) -/

/-- A bucketed event: its assigned time bucket (if any) and its
`agent_type` category. -/
abbrev BEvent := Option String × String

/-- The count of events of bucket `b` and category `a`: the size of the
`groupby(['week_bucket', 'agent_type'])` group (line 675), or `0` after the
zero-fill `merge` with `all_combinations` (lines 680-682) when the group is
absent.  Events whose bucket is `none` are dropped by `groupby`. -/
def countPair (evs : List BEvent) (b a : String) : Nat :=
  evs.countP (fun e => e.1 == some b && e.2 == a)

/-- The cells of the pivot row of category `a`, one per bucket label
(`pivot_table` with `fill_value=0`, lines 686-700). -/
def rowCells (evs : List BEvent) (buckets : List String) (a : String) : List Nat :=
  buckets.map (fun b => countPair evs b a)

/-- The data total of a labelled row. -/
def rowTotal (r : String × List Nat) : Nat := r.2.sum

/-- Insert a row into a list sorted by descending total. -/
def insertRowDesc (r : String × List Nat) : List (String × List Nat) → List (String × List Nat)
  | [] => [r]
  | x :: xs => if rowTotal x < rowTotal r then r :: x :: xs else x :: insertRowDesc r xs

/-- `df_week_table.sort_values('Total', ascending=False)` (line 703). -/
def sortRowsDesc : List (String × List Nat) → List (String × List Nat)
  | [] => []
  | r :: rs => insertRowDesc r (sortRowsDesc rs)

/-- `df_week_table['Total'] = df_week_table.sum(axis=1)` placed first
(lines 702, 711-713): each row gains its cell sum as leading entry. -/
def withTotalCol (rows : List (String × List Nat)) : List (String × List Nat) :=
  rows.map (fun r => (r.1, r.2.sum :: r.2))

/-- The column sums of a table with `n` columns (cells missing in a short row
count as 0; every produced row has full length). -/
def colSums (rows : List (String × List Nat)) (n : Nat) : List Nat :=
  (List.range n).map (fun i => (rows.map (fun r => r.2.getD i 0)).sum)

/-- `df_week_table.loc['Total'] = df_week_table.sum(numeric_only=True)`
(line 715): a final row summing every displayed column, the leading `Total`
column included. -/
def totalRowFor (rows : List (String × List Nat)) (n : Nat) : String × List Nat :=
  ("Total", colSums (withTotalCol rows) (n + 1))

/-- The weekly rollup table (lines 666-715) for a bucketed event list, a
bucket-label universe and a category universe: one data row per category
with zero-filled per-bucket counts, a leading `Total` column, data rows
sorted by descending total, and a trailing `Total` row of column sums.
The later `replace(0, '-')` (line 718) is presentation only. -/
def df_week_table (evs : List BEvent) (buckets agents : List String) :
    List (String × List Nat) :=
  let rows := sortRowsDesc (agents.map (fun a => (a, rowCells evs buckets a)))
  withTotalCol rows ++ [totalRowFor rows buckets.length]

/-- Sum of the body cells of a built table: all cells outside the `Total`
row (last) and the `Total` column (first of each row). -/
def tableBodySum (t : List (String × List Nat)) : Nat :=
  (t.dropLast.map (fun r => r.2.tail.sum)).sum

/-- `all_agents = df_chart['agent_type'].unique()` (line 679): the distinct
categories among the events that received a bucket. -/
def observedAgents (evs : List BEvent) : List String :=
  ((evs.filter (fun e => e.1.isSome)).map (fun e => e.2)).dedup

/-- `all_weeks` of the trial mode (line 669): the distinct bucket labels
appearing on the events. -/
def observedBuckets (evs : List BEvent) : List String :=
  (evs.filterMap (fun e => e.1)).dedup

/-- A raw event of the selected organization: timestamp and category. -/
abbrev RawEvent := Option Int × String

/-- The rolling-4-week pipeline: bucket each raw event with
`assign_week_bucket` (line 652). -/
def bucketize (anchor : Int) (raw : List RawEvent) : List BEvent :=
  raw.map (fun e => (assign_week_bucket anchor e.1, e.2))

/-- The trial-relative pipeline: label each raw event with `week_from_trial`
(lines 656-664); every event receives a label. -/
def trialBucketize (t : Int) (raw : List RawEvent) : List BEvent :=
  raw.map (fun e => (some (week_from_trial t e.1), e.2))

/-- The fixed bucket universe of the rolling scheme (line 678). -/
def weekBucketLabels : List String := ["week1", "week2", "week3", "week4"]

/-- `total_events = len(df_usage_org)` (line 169): the raw event count,
timestamped or not. -/
def total_events (raw : List RawEvent) : Nat := raw.length

/-- Whether an event would be counted in some body cell of a table over the
given bucket and category universes. -/
def coveredBy (buckets agents : List String) (e : BEvent) : Bool :=
  match e.1 with
  | some b => decide (b ∈ buckets) && decide (e.2 ∈ agents)
  | none => false

/-! ### Response-time statistics (Usage_Summary.py lines 1089-1108) -/

/-- A `time_to_first_byte` value in milliseconds is kept when it is positive
and at most 300000 ms; lines 1092-1093 turn every other value into `None`. -/
def validMs (v : Int) : Bool := decide (0 < v ∧ v ≤ 300000)

/-- The valid response times converted to seconds (line 1096): the non-null
millisecond values inside (0, 300000], each divided by 1000.  The
statistics (`median`, `mean`, `quantile`) skip the `None` entries, so they
see exactly this list. -/
def validSecs (vals : List (Option Int)) : List ℚ :=
  ((vals.filterMap id).filter validMs).map (fun v : Int => (v : ℚ) / 1000)

/-- Ascending insertion into a sorted list of rationals. -/
def qInsAsc (r : ℚ) : List ℚ → List ℚ
  | [] => [r]
  | x :: xs => if r ≤ x then r :: x :: xs else x :: qInsAsc r xs

/-- Ascending insertion sort of rationals. -/
def qSortAsc : List ℚ → List ℚ
  | [] => []
  | r :: rs => qInsAsc r (qSortAsc rs)

/-- `Series.median()` over the non-null values (line 1101): middle element
of the sorted list, or the mean of the two middle elements; `none` when
empty. -/
def medianQ (l : List ℚ) : Option ℚ :=
  if (qSortAsc l).length = 0 then none
  else if (qSortAsc l).length % 2 = 1 then (qSortAsc l)[(qSortAsc l).length / 2]?
  else
    match (qSortAsc l)[(qSortAsc l).length / 2 - 1]?,
        (qSortAsc l)[(qSortAsc l).length / 2]? with
    | some x, some y => some ((x + y) / 2)
    | _, _ => none

/-- `Series.mean()` over the non-null values (line 1104). -/
def meanQ (l : List ℚ) : Option ℚ :=
  if l.length = 0 then none else some (l.sum / (l.length : ℚ))

/-- `Series.quantile(0.95)` (line 1107), the linear-interpolated rank
statistic: with `h = 0.95 * (n - 1)` and `i = floor h`, the value
`s[i] + (h - i) * (s[i+1] - s[i])` on the sorted list `s`. -/
def quantile95 (l : List ℚ) : Option ℚ :=
  if (qSortAsc l).length = 0 then none
  else
    match (qSortAsc l)[19 * ((qSortAsc l).length - 1) / 20]?,
        (qSortAsc l)[19 * ((qSortAsc l).length - 1) / 20 + 1]? with
    | some x, some y =>
        some (x + (19 * (((qSortAsc l).length : ℚ) - 1) / 20
          - ((19 * ((qSortAsc l).length - 1) / 20 : Nat) : ℚ)) * (y - x))
    | some x, none => some x
    | _, _ => none

/-- Median response time in seconds (lines 1092-1101). -/
def medianResponseSec (vals : List (Option Int)) : Option ℚ :=
  medianQ (validSecs vals)

/-- Mean response time in seconds (lines 1092-1104). -/
def meanResponseSec (vals : List (Option Int)) : Option ℚ :=
  meanQ (validSecs vals)

/-- 95th-percentile response time in seconds (lines 1092-1107). -/
def p95ResponseSec (vals : List (Option Int)) : Option ℚ :=
  quantile95 (validSecs vals)

/-! ### Active-ratio metric (Usage_Summary.py lines 172-187) -/

/-- A row of df_users: email (may be null), organization, roster status
(null for joined-but-no-usage users). -/
structure RosterEntry where
  user_email : Option String
  organization : String
  status : Option String
deriving DecidableEq

/-- `df_users[df_users['organization'] == selected_org]` (line 173). -/
def rosterForOrg (roster : List RosterEntry) (org : String) : List RosterEntry :=
  roster.filter (fun r => r.organization == org)

/-- `['user_email'].nunique()` (lines 178, 182): distinct non-null emails. -/
def nuniqueEmails (rs : List RosterEntry) : Nat :=
  ((rs.filterMap (fun r => r.user_email)).dedup).length

/-- `total_users` (line 178). -/
def total_users (roster : List RosterEntry) (org : String) : Nat :=
  nuniqueEmails (rosterForOrg roster org)

/-- `active_users` (line 182): distinct emails among rows whose status is
`'active'`. -/
def active_users (roster : List RosterEntry) (org : String) : Nat :=
  nuniqueEmails ((rosterForOrg roster org).filter (fun r => r.status == some "active"))

/-- `active_ratio = f"{active_users} / {total_users}"` (line 187).  The
event-log parameter is carried to state that the ratio never reads it. -/
def active_ratio (events : List RawEvent) (roster : List RosterEntry)
    (org : String) : String :=
  toString (active_users roster org) ++ " / " ++ toString (total_users roster org)

/-! ### Time-saved metric (Usage_Summary.py lines 125-126, 207-216) -/

/-- `time_map = {"deep_research": 40, "pulse_check": 30}` then `fillna(30)`
(lines 125-126). -/
def saved_minutes (agent : String) : ℚ :=
  if agent = "deep_research" then 40 else if agent = "pulse_check" then 30 else 30

/-- Floor of a rational as an integer. -/
def qfloorInt (x : ℚ) : Int := x.num.fdiv (x.den : Int)

/-- Python `round(x, 1)` idealized on exact rationals: `10 * x` rounded half
to even, returned in tenths. -/
def roundHalfEvenTenths (x : ℚ) : Int :=
  if 10 * x - (qfloorInt (10 * x) : ℚ) < 1 / 2 then qfloorInt (10 * x)
  else if (1 : ℚ) / 2 < 10 * x - (qfloorInt (10 * x) : ℚ) then qfloorInt (10 * x) + 1
  else if qfloorInt (10 * x) % 2 = 0 then qfloorInt (10 * x)
  else qfloorInt (10 * x) + 1

/-- Rendering of a non-negative tenths value with one decimal digit. -/
def fmt1 (t : Int) : String := toString (t.fdiv 10) ++ "." ++ toString (t.fmod 10)

/-- `(df_usage_active['created_at'].max() - ...min()).days` (line 210): day
span of the timestamped events.  pandas skips `NaT` in `max`/`min`; with no
valid timestamp the span would be `NaN` and Python's `max(1, NaN // 7)`
yields 1, which the 0 default reproduces. -/
def date_range_days (evs : List RawEvent) : Int :=
  (((evs.filterMap (fun e => e.1)).max?.getD 0)
    - ((evs.filterMap (fun e => e.1)).min?.getD 0)).fdiv 1440

/-- `used_weeks = max(1, date_range // 7)` (line 211). -/
def used_weeks (evs : List RawEvent) : Int :=
  max 1 ((date_range_days evs).fdiv 7)

/-- `total_saved_minutes` (line 212). -/
def total_saved_minutes (evs : List RawEvent) : ℚ :=
  (evs.map (fun e => saved_minutes e.2)).sum

/-- Lines 208-216: the displayed `Avg. Time Saved / User / Week`:
`round(total_saved_minutes / used_weeks / active_users, 1)` suffixed
`" min"`, or the sentinel `"—"` when the active event set is empty or the
active-user count is 0. -/
def saved_display (evs : List RawEvent) (active_count : Nat) : String :=
  if evs.isEmpty || active_count == 0 then "—"
  else fmt1 (roundHalfEvenTenths (total_saved_minutes evs
    / (used_weeks evs : ℚ) / (active_count : ℚ))) ++ " min"

/-- A concrete two-event active set spanning ten days, used to instantiate
the time-saved KPI. -/
def wSavedEvs : List RawEvent :=
  [(some mJan1_2025, "deep_research"), (some (mJan1_2025 + 10 * 1440), "normal")]

/-! ### Response-time stage input (Usage_Summary.py lines 1090, 1116-1119) -/

/-- Every dataframe name bound by an assignment in
src/pages/Usage_Summary.py.  `df_all` is not among them: the script's
preprocessing comment (line 87) says df_usage is used directly in its
place, yet line 1090 still reads `df_all`. -/
def scriptFrameNames : List String :=
  ["df_usage", "df_users", "df_trial_dates", "df_usage_org", "df_users_org",
   "df_usage_active", "df_active_org", "org_date_df", "org_counts",
   "org_daily", "df_total_daily", "df_2025", "user_first_dates",
   "user_counts", "user_df", "user_counts_filtered", "df_user_filtered",
   "table_data", "df_chart", "all_combinations", "df_week_table", "df_week",
   "df_day", "df_day_table", "df_user_week", "df_user_stack_full",
   "df_user_stack_chart", "df_user_table", "df_user_detail",
   "df_user_counts", "df_time", "daily_stats", "selected_date_data",
   "func_stats", "slow_requests"]

/-- The canonical event columns: the rename targets of the input adapter
(lines 94-112) plus the derived columns (lines 121-126, 652, 656). -/
def canonicalEventColumns : List String :=
  ["user_email", "user_name", "organization", "created_at", "function_mode",
   "selected_model", "sender", "time_to_first_byte", "status", "division",
   "trial_start_date", "day_bucket", "agent_type", "saved_minutes",
   "week_bucket", "week_from_trial"]

/-- Python name lookup over the dataframes defined at a program point. -/
def lookupFrame (env : List (String × List (Option Int))) (name : String) :
    Except String (List (Option Int)) :=
  match env.find? (fun p => p.1 == name) with
  | some p => Except.ok p.2
  | none => Except.error ("NameError: name " ++ name ++ " is not defined")

/-- Line 1090, `df_time = df_all.copy()`: the stage reads the name `df_all`
before any statistic is computed; the statistics of lines 1092-1108 run
only on a successful lookup. -/
def responseTimeStage (env : List (String × List (Option Int))) :
    Except String (Option ℚ × Option ℚ × Option ℚ) :=
  Except.map
    (fun col => (medianResponseSec col, meanResponseSec col, p95ResponseSec col))
    (lookupFrame env "df_all")

/-! ### Theorems -/

/-- Rewriting `Int.fdiv` by a positive literal as Euclidean division, for
`omega`. -/
theorem fdiv_pos_eq (a b : Int) (hb : 0 ≤ b) : a.fdiv b = a / b :=
  Int.fdiv_eq_ediv a hb

/-- The ladder of `assign_week_bucket` returns week4 exactly on its window. -/
theorem assign_eq_week4_iff (anchor d : Int) :
    assign_week_bucket anchor (some d) = some "week4" ↔
      anchor - 6 * 1440 ≤ d ∧ d ≤ anchor := by
  simp only [assign_week_bucket]
  split_ifs <;> simp_all

/-- The ladder of `assign_week_bucket` returns week3 exactly on its window. -/
theorem assign_eq_week3_iff (anchor d : Int) :
    assign_week_bucket anchor (some d) = some "week3" ↔
      anchor - 13 * 1440 ≤ d ∧ d ≤ anchor - 7 * 1440 := by
  simp only [assign_week_bucket]
  split_ifs <;> simp_all <;> omega

/-- The ladder of `assign_week_bucket` returns week2 exactly on its window. -/
theorem assign_eq_week2_iff (anchor d : Int) :
    assign_week_bucket anchor (some d) = some "week2" ↔
      anchor - 20 * 1440 ≤ d ∧ d ≤ anchor - 14 * 1440 := by
  simp only [assign_week_bucket]
  split_ifs <;> simp_all <;> omega

/-- The ladder of `assign_week_bucket` returns week1 exactly on its window. -/
theorem assign_eq_week1_iff (anchor d : Int) :
    assign_week_bucket anchor (some d) = some "week1" ↔
      anchor - 27 * 1440 ≤ d ∧ d ≤ anchor - 21 * 1440 := by
  simp only [assign_week_bucket]
  split_ifs <;> simp_all <;> omega

/-- The ladder of `assign_week_bucket` returns no bucket exactly outside all
four windows. -/
theorem assign_eq_none_iff (anchor d : Int) :
    assign_week_bucket anchor (some d) = none ↔
      ¬(anchor - 6 * 1440 ≤ d ∧ d ≤ anchor)
      ∧ ¬(anchor - 13 * 1440 ≤ d ∧ d ≤ anchor - 7 * 1440)
      ∧ ¬(anchor - 20 * 1440 ≤ d ∧ d ≤ anchor - 14 * 1440)
      ∧ ¬(anchor - 27 * 1440 ≤ d ∧ d ≤ anchor - 21 * 1440) := by
  simp only [assign_week_bucket]
  split_ifs <;> simp_all

/-- C2: the rolling 4-week scheme.  The anchor is the current day at midday;
the four labels denote pairwise disjoint windows, each spanning 6 days
endpoint-to-endpoint (7 calendar days), consecutive windows abutting one day
apart, with week4 ending exactly at the anchor; a timestamp inside window `k`
is assigned `weekLabel k` and a timestamp outside all four windows (or a
missing timestamp) is assigned no bucket.  Concretely, with anchor
2025-06-15T12:00, an event at 2025-06-10 gets week4 and an event at
2025-05-01 gets none. -/
theorem rolling_window_spec :
    (∀ t : Int, normalizeNoon t % 1440 = 720
        ∧ (normalizeNoon t).fdiv 1440 = t.fdiv 1440)
    ∧ (∀ anchor : Int, (weekWindow anchor 4).2 = anchor
        ∧ (∀ k : Int, 1 ≤ k → k ≤ 4 →
            (weekWindow anchor k).2 - (weekWindow anchor k).1 = 6 * 1440)
        ∧ (∀ k : Int, 1 ≤ k → k ≤ 3 →
            (weekWindow anchor k).2 + 1440 = (weekWindow anchor (k + 1)).1))
    ∧ (∀ anchor d k j : Int, 1 ≤ k → k ≤ 4 → 1 ≤ j → j ≤ 4 → k ≠ j →
        ¬(inWindow anchor k d ∧ inWindow anchor j d))
    ∧ (∀ anchor d k : Int, 1 ≤ k → k ≤ 4 →
        (inWindow anchor k d ↔
          assign_week_bucket anchor (some d) = some (weekLabel k)))
    ∧ (∀ anchor d : Int, (∀ k : Int, 1 ≤ k → k ≤ 4 → ¬ inWindow anchor k d) →
        assign_week_bucket anchor (some d) = none)
    ∧ (∀ anchor : Int, assign_week_bucket anchor none = none)
    ∧ assign_week_bucket (normalizeNoon mJun15Noon_2025) (some mJun10_2025)
        = some "week4"
    ∧ assign_week_bucket (normalizeNoon mJun15Noon_2025) (some mMay1_2025)
        = none := by
  refine ⟨?_, ?_, ?_, ?_, ?_, ?_, ?_, ?_⟩
  · intro t
    unfold normalizeNoon
    rw [fdiv_pos_eq _ _ (by norm_num), fdiv_pos_eq _ _ (by norm_num)]
    generalize t / 1440 = q
    omega
  · intro anchor
    refine ⟨by dsimp only [weekWindow]; omega, ?_, ?_⟩
    · intro k h1 h4
      dsimp only [weekWindow]
      omega
    · intro k h1 h3
      dsimp only [weekWindow]
      omega
  · intro anchor d k j hk1 hk4 hj1 hj4 hkj
    dsimp only [inWindow, weekWindow]
    omega
  · intro anchor d k hk1 hk4
    interval_cases k
    · rw [show weekLabel 1 = "week1" from rfl, assign_eq_week1_iff]
      dsimp only [inWindow, weekWindow]
      omega
    · rw [show weekLabel 2 = "week2" from rfl, assign_eq_week2_iff]
      dsimp only [inWindow, weekWindow]
      omega
    · rw [show weekLabel 3 = "week3" from rfl, assign_eq_week3_iff]
      dsimp only [inWindow, weekWindow]
      omega
    · rw [show weekLabel 4 = "week4" from rfl, assign_eq_week4_iff]
      dsimp only [inWindow, weekWindow]
      omega
  · intro anchor d h
    have h1 := h 1 (by norm_num) (by norm_num)
    have h2 := h 2 (by norm_num) (by norm_num)
    have h3 := h 3 (by norm_num) (by norm_num)
    have h4 := h 4 (by norm_num) (by norm_num)
    dsimp only [inWindow, weekWindow] at h1 h2 h3 h4
    rw [assign_eq_none_iff]
    omega
  · intro anchor; rfl
  · decide
  · decide

/-- Witness for C2: the characterization applied at the concrete anchor
2025-06-15T12:00 and the timestamp 2025-06-10T00:00 yields bucket week4. -/
theorem rolling_window_spec_witness :
    assign_week_bucket mJun15Noon_2025 (some mJun10_2025) = some (weekLabel 4) :=
  (rolling_window_spec.2.2.2.1 mJun15Noon_2025 mJun10_2025 4
    (by norm_num) (by norm_num)).mp
    (by unfold inWindow weekWindow mJun15Noon_2025 mJun10_2025; norm_num)

/-- The clamped trial-week number is the clamp-at-1 of the floor formula. -/
theorem week_from_trial_num_eq_max (t c : Int) :
    week_from_trial_num t c = max 1 (((c - t).fdiv 1440).fdiv 7 + 1) := by
  unfold week_from_trial_num
  split_ifs with h
  · exact (max_eq_left h).symm
  · exact (max_eq_right (le_of_not_le h)).symm

/-- C3: the trial-relative scheme.  For a valid timestamp `c` and trial start
`t`, the assigned trial week is
`floor((c - t) in days / 7) + 1` clamped below at 1 (so day 0 and dates
before `t` give week 1), and the result is always at least 1.  Concretely,
with `t` = 2025-03-01 an event on 2025-03-08 is week 2 and an event on
2025-03-01 is week 1. -/
theorem trial_week_spec :
    (∀ t c : Int, week_from_trial t (some c)
        = "Trial Week " ++ toString (max 1 (((c - t).fdiv 1440).fdiv 7 + 1)))
    ∧ (∀ t c : Int, c < t → week_from_trial t (some c) = "Trial Week 1")
    ∧ (∀ t c : Int, 1 ≤ week_from_trial_num t c)
    ∧ week_from_trial mMar1_2025 (some mMar8_2025) = "Trial Week 2"
    ∧ week_from_trial mMar1_2025 (some mMar1_2025) = "Trial Week 1" := by
  refine ⟨?_, ?_, ?_, by decide, by decide⟩
  · intro t c
    simp only [week_from_trial]
    rw [week_from_trial_num_eq_max]
  · intro t c hlt
    simp only [week_from_trial, week_from_trial_num]
    rw [fdiv_pos_eq (c - t) 1440 (by norm_num)]
    rw [fdiv_pos_eq ((c - t) / 1440) 7 (by norm_num)]
    have h : (c - t) / 1440 / 7 + 1 ≤ 1 := by omega
    rw [if_pos h]
    rfl
  · intro t c
    unfold week_from_trial_num
    split_ifs with h <;> omega

/-- Witness for C3: an event dated before the trial start is clamped to
trial week 1. -/
theorem trial_week_spec_witness :
    week_from_trial mMar1_2025 (some mJan2_2025) = "Trial Week 1" :=
  trial_week_spec.2.1 mMar1_2025 mJan2_2025 (by decide)

/-- C4 (amended): an event with a missing/unparseable timestamp is assigned
no bucket by the rolling 4-week scheme and contributes to no grouped count
there, but in the trial-relative scheme `fillna(1)` labels it
`"Trial Week 1"`; either way no error is raised (the functions are total)
and the event still counts in the raw event total. -/
theorem missing_timestamp_spec (anchor t : Int) (x : String) (evs : List BEvent)
    (raw : List RawEvent) (b a : String) :
    assign_week_bucket anchor none = none
    ∧ countPair ((none, x) :: evs) b a = countPair evs b a
    ∧ week_from_trial t none = "Trial Week 1"
    ∧ total_events ((none, x) :: raw) = total_events raw + 1 := by
  refine ⟨rfl, ?_, rfl, rfl⟩
  simp [countPair]

/-- Counterexample to C4 as stated: in the trial-relative scheme an event
with a missing timestamp is assigned the bucket `"Trial Week 1"` (not no
bucket) and is counted by the bucket-grouped rollup. -/
theorem missing_timestamp_counterexample :
    week_from_trial mMar1_2025 none = "Trial Week 1"
    ∧ trialBucketize mMar1_2025 [(none, "normal")]
        = [(some "Trial Week 1", "normal")]
    ∧ tableBodySum (df_week_table (trialBucketize mMar1_2025 [(none, "normal")])
        ["Trial Week 1"] ["normal"]) = 1 := by
  decide

/-- C6 (amended): the year-2024 reset of `trial_start_date` to 2025-01-01 is
applied only on the copy `df_active_org` that drives the daily usage
time-series (lines 362-368); trial-week assignment (line 656) keeps using
the recorded trial start, so for an organization with a 2024 trial start the
trial weeks stay relative to the recorded date, not to 2025-01-01. -/
theorem trial_reset_scope (recorded : Int) (h : dtYear2024 recorded = true) :
    chartTrialStart recorded = mJan1_2025
    ∧ ∀ c : Int, orgWeekLabel recorded (some c)
        = "Trial Week " ++ toString (max 1 (((c - recorded).fdiv 1440).fdiv 7 + 1)) := by
  constructor
  · simp [chartTrialStart, h]
  · intro c
    simp only [orgWeekLabel, week_from_trial]
    rw [week_from_trial_num_eq_max]

/-- Witness for C6: the amended statement applied to the recorded trial
start 2024-12-01. -/
theorem trial_reset_scope_witness :
    chartTrialStart mDec1_2024 = mJan1_2025
    ∧ orgWeekLabel mDec1_2024 (some mJan2_2025)
        = "Trial Week "
          ++ toString (max 1 (((mJan2_2025 - mDec1_2024).fdiv 1440).fdiv 7 + 1)) :=
  ⟨(trial_reset_scope mDec1_2024 (by decide)).1,
   (trial_reset_scope mDec1_2024 (by decide)).2 mJan2_2025⟩

/-- Counterexample to C6 as stated: for the recorded trial start 2024-12-01
(year 2024) and an event on 2025-01-02, the code assigns trial week 5
(relative to the recorded date), while a reset to 2025-01-01 would give
trial week 1. -/
theorem trial_reset_counterexample :
    dtYear2024 mDec1_2024 = true
    ∧ orgWeekLabel mDec1_2024 (some mJan2_2025) = "Trial Week 5"
    ∧ week_from_trial (chartTrialStart mDec1_2024) (some mJan2_2025)
        = "Trial Week 1"
    ∧ orgWeekLabel mDec1_2024 (some mJan2_2025)
        ≠ week_from_trial (chartTrialStart mDec1_2024) (some mJan2_2025) := by
  decide

/-- Inserting into a total-sorted list is a permutation of consing. -/
theorem insertRowDesc_perm (r : String × List Nat) (l : List (String × List Nat)) :
    (insertRowDesc r l).Perm (r :: l) := by
  induction l with
  | nil => simp [insertRowDesc]
  | cons x xs ih =>
    simp only [insertRowDesc]
    split_ifs
    · exact List.Perm.refl _
    · exact (ih.cons x).trans (List.Perm.swap r x xs)

/-- Sorting by descending total permutes the rows. -/
theorem sortRowsDesc_perm (l : List (String × List Nat)) :
    (sortRowsDesc l).Perm l := by
  induction l with
  | nil => simp [sortRowsDesc]
  | cons r rs ih =>
    exact (insertRowDesc_perm r (sortRowsDesc rs)).trans (ih.cons r)

/-- Membership in an insertion. -/
theorem mem_insertRowDesc {y r : String × List Nat} {l : List (String × List Nat)} :
    y ∈ insertRowDesc r l ↔ y = r ∨ y ∈ l := by
  rw [(insertRowDesc_perm r l).mem_iff, List.mem_cons]

/-- Inserting preserves descending order by total. -/
theorem pairwise_insertRowDesc (r : String × List Nat) (l : List (String × List Nat))
    (h : l.Pairwise (fun x y => rowTotal y ≤ rowTotal x)) :
    (insertRowDesc r l).Pairwise (fun x y => rowTotal y ≤ rowTotal x) := by
  induction l with
  | nil => simp [insertRowDesc]
  | cons x xs ih =>
    rw [List.pairwise_cons] at h
    simp only [insertRowDesc]
    split_ifs with hlt
    · rw [List.pairwise_cons]
      refine ⟨?_, List.pairwise_cons.mpr h⟩
      intro y hy
      rcases List.mem_cons.mp hy with rfl | hy
      · exact le_of_lt hlt
      · exact le_trans (h.1 y hy) (le_of_lt hlt)
    · rw [List.pairwise_cons]
      refine ⟨?_, ih h.2⟩
      intro y hy
      rcases mem_insertRowDesc.mp hy with rfl | hy
      · exact le_of_not_lt hlt
      · exact h.1 y hy

/-- The sort produces a list in descending order of total. -/
theorem pairwise_sortRowsDesc (l : List (String × List Nat)) :
    (sortRowsDesc l).Pairwise (fun x y => rowTotal y ≤ rowTotal x) := by
  induction l with
  | nil => simp [sortRowsDesc]
  | cons r rs ih => exact pairwise_insertRowDesc r (sortRowsDesc rs) ih

/-- Distributing a sum over a pointwise sum of maps. -/
theorem sum_map_add (l : List String) (f g : String → Nat) :
    (l.map (fun x => f x + g x)).sum = (l.map f).sum + (l.map g).sum := by
  induction l with
  | nil => simp
  | cons x xs ih => simp [ih]; omega

/-- Summing an equality indicator over a duplicate-free list. -/
theorem sum_if_eq (l : List String) (hl : l.Nodup) (c : String) (n : Nat) :
    (l.map (fun x => if c = x then n else 0)).sum = if c ∈ l then n else 0 := by
  induction l with
  | nil => simp
  | cons x xs ih =>
    rw [List.nodup_cons] at hl
    by_cases hcx : c = x
    · subst hcx
      simp only [List.map_cons, List.sum_cons, if_pos rfl]
      rw [ih hl.2, if_neg hl.1, if_pos (List.mem_cons_self c xs)]
      simp
    · simp only [List.map_cons, List.sum_cons, if_neg hcx]
      rw [ih hl.2]
      by_cases hcm : c ∈ xs
      · rw [if_pos hcm, if_pos (List.mem_cons_of_mem x hcm)]
        simp
      · rw [if_neg hcm, if_neg (by simp [hcx, hcm])]

/-- The double indicator sum of one event over the two duplicate-free
dimension universes is 1 exactly when the event is covered. -/
theorem indicator_double_sum (buckets agents : List String)
    (hb : buckets.Nodup) (ha : agents.Nodup) (e : BEvent) :
    (agents.map (fun a =>
        (buckets.map (fun b => if (e.1 == some b && e.2 == a) = true then 1 else 0)).sum)).sum
      = if coveredBy buckets agents e then 1 else 0 := by
  obtain ⟨o, x⟩ := e
  cases o with
  | none => simp [coveredBy]
  | some v =>
    have hinner : ∀ a : String,
        (buckets.map (fun b =>
            if ((some v : Option String) == some b && x == a) = true then 1 else 0)).sum
          = if x = a then (if v ∈ buckets then 1 else 0) else 0 := by
      intro a
      by_cases hxa : x = a
      · subst hxa
        rw [if_pos rfl]
        have : ∀ b : String,
            (if ((some v : Option String) == some b && x == x) = true then 1 else 0)
              = if v = b then 1 else 0 := by
          intro b; simp
        rw [List.map_congr_left (fun b _ => this b)]
        exact sum_if_eq buckets hb v 1
      · rw [if_neg hxa]
        have : ∀ b : String,
            (if ((some v : Option String) == some b && x == a) = true then 1 else 0)
              = 0 := by
          intro b; simp [hxa]
        rw [List.map_congr_left (fun b _ => this b)]
        simp
    rw [List.map_congr_left (fun a _ => hinner a)]
    rw [sum_if_eq agents ha x (if v ∈ buckets then 1 else 0)]
    simp only [coveredBy]
    by_cases hx : x ∈ agents <;> by_cases hv : v ∈ buckets <;> simp [hx, hv]

/-- The per-category row sums over a duplicate-free category universe add up
to the number of covered events. -/
theorem rowSums_eq_coveredCount (evs : List BEvent) (buckets agents : List String)
    (hb : buckets.Nodup) (ha : agents.Nodup) :
    (agents.map (fun a => (rowCells evs buckets a).sum)).sum
      = (evs.filter (coveredBy buckets agents)).length := by
  induction evs with
  | nil => simp [rowCells, countPair]
  | cons e evs ih =>
    have hstep : ∀ a : String, (rowCells (e :: evs) buckets a).sum
        = (rowCells evs buckets a).sum
          + (buckets.map (fun b =>
              if (e.1 == some b && e.2 == a) = true then 1 else 0)).sum := by
      intro a
      simp only [rowCells, countPair, List.countP_cons]
      exact sum_map_add buckets _ _
    rw [List.map_congr_left (fun a _ => hstep a), sum_map_add agents _ _, ih,
      indicator_double_sum buckets agents hb ha e, List.filter_cons]
    by_cases hc : coveredBy buckets agents e = true <;> simp [hc]

/-- Over the universes actually used by the pipeline, every bucketed event is
covered: its bucket is among the observed buckets. -/
theorem mem_observedBuckets {evs : List BEvent} {e : BEvent} {b : String}
    (he : e ∈ evs) (hb : e.1 = some b) : b ∈ observedBuckets evs := by
  unfold observedBuckets
  rw [List.mem_dedup, List.mem_filterMap]
  exact ⟨e, he, hb⟩

/-- Every bucketed event's category is among the observed categories. -/
theorem mem_observedAgents {evs : List BEvent} {e : BEvent}
    (he : e ∈ evs) (hs : e.1.isSome = true) : e.2 ∈ observedAgents evs := by
  unfold observedAgents
  rw [List.mem_dedup, List.mem_map]
  exact ⟨e, List.mem_filter.mpr ⟨he, hs⟩, rfl⟩

/-- The body-cell sum of a built table counts exactly the events whose bucket
and category lie in the two universes. -/
theorem tableBodySum_eq_filter_length (evs : List BEvent) (buckets agents : List String)
    (hb : buckets.Nodup) (ha : agents.Nodup)
    (h1 : ∀ e ∈ evs, ∀ b : String, e.1 = some b → b ∈ buckets)
    (h2 : ∀ e ∈ evs, e.1.isSome = true → e.2 ∈ agents) :
    tableBodySum (df_week_table evs buckets agents)
      = (evs.filter (fun e => e.1.isSome)).length := by
  unfold tableBodySum df_week_table
  rw [List.dropLast_concat]
  have hmap : (withTotalCol (sortRowsDesc (agents.map (fun a => (a, rowCells evs buckets a))))).map
      (fun r => r.2.tail.sum)
      = (sortRowsDesc (agents.map (fun a => (a, rowCells evs buckets a)))).map
          (fun r => r.2.sum) := by
    unfold withTotalCol
    rw [List.map_map]
    rfl
  rw [hmap]
  have hperm := (sortRowsDesc_perm (agents.map (fun a => (a, rowCells evs buckets a)))).map
    (fun r : String × List Nat => r.2.sum)
  rw [hperm.sum_eq, List.map_map]
  have : (agents.map ((fun r : String × List Nat => r.2.sum)
      ∘ fun a => (a, rowCells evs buckets a))).sum
      = (agents.map (fun a => (rowCells evs buckets a).sum)).sum := rfl
  rw [this, rowSums_eq_coveredCount evs buckets agents hb ha]
  congr 1
  apply List.filter_congr
  intro e he
  match h : e.1 with
  | none => simp [coveredBy, h]
  | some v =>
    simp [coveredBy, h, h1 e he v h, h2 e he (by simp [h])]

/-- C1: shape of the weekly rollup table.  For any filtered bucketed event
set and duplicate-free category universe: the data-row labels are exactly
the categories (each exactly once); each category's row is present with its
`Total` first and then one zero-filled count cell per bucket label, so every
(bucket, category) pair of the universe appears exactly once with count
`>= 0`; every data row's cells are indexed by the bucket universe; the data
rows are sorted by descending total; and the last row is the `Total` row
whose entries are the column sums of the data rows. -/
theorem rollup_table_spec (evs : List BEvent) (buckets agents : List String)
    (ha : agents.Nodup) :
    ((df_week_table evs buckets agents).dropLast.map Prod.fst).Perm agents
    ∧ ((df_week_table evs buckets agents).dropLast.map Prod.fst).Nodup
    ∧ (∀ a ∈ agents,
        (a, (rowCells evs buckets a).sum :: rowCells evs buckets a)
          ∈ (df_week_table evs buckets agents).dropLast)
    ∧ (∀ r ∈ (df_week_table evs buckets agents).dropLast,
        r.2 = (rowCells evs buckets r.1).sum :: rowCells evs buckets r.1
          ∧ r.2.length = buckets.length + 1 ∧ r.1 ∈ agents)
    ∧ (∀ a : String, ∀ i : Nat,
        (rowCells evs buckets a)[i]? = (buckets[i]?).map (fun b => countPair evs b a))
    ∧ (∀ r ∈ (df_week_table evs buckets agents).dropLast, ∀ c ∈ r.2, 0 ≤ c)
    ∧ ((df_week_table evs buckets agents).dropLast.Pairwise
        (fun r1 r2 => r2.2.tail.sum ≤ r1.2.tail.sum))
    ∧ (∃ tr : List Nat,
        (df_week_table evs buckets agents).getLast? = some ("Total", tr)
        ∧ tr.length = buckets.length + 1
        ∧ (∀ i : Nat, i < buckets.length + 1 →
            tr[i]? = some (((df_week_table evs buckets agents).dropLast.map
              (fun r => r.2.getD i 0)).sum))) := by
  have hT : df_week_table evs buckets agents
      = withTotalCol (sortRowsDesc (agents.map (fun a => (a, rowCells evs buckets a))))
        ++ [totalRowFor (sortRowsDesc (agents.map (fun a => (a, rowCells evs buckets a))))
             buckets.length] := rfl
  have hdrop : (df_week_table evs buckets agents).dropLast
      = withTotalCol (sortRowsDesc (agents.map (fun a => (a, rowCells evs buckets a)))) := by
    rw [hT, List.dropLast_concat]
  have hlast : (df_week_table evs buckets agents).getLast?
      = some (totalRowFor
          (sortRowsDesc (agents.map (fun a => (a, rowCells evs buckets a))))
          buckets.length) := by
    rw [hT, List.getLast?_concat]
  have hperm : ((df_week_table evs buckets agents).dropLast.map Prod.fst).Perm agents := by
    rw [hdrop]
    have hfst : (withTotalCol
        (sortRowsDesc (agents.map (fun a => (a, rowCells evs buckets a))))).map Prod.fst
        = (sortRowsDesc (agents.map (fun a => (a, rowCells evs buckets a)))).map Prod.fst := by
      unfold withTotalCol
      rw [List.map_map]
      rfl
    rw [hfst]
    have hp := (sortRowsDesc_perm
      (agents.map (fun a => (a, rowCells evs buckets a)))).map Prod.fst
    rw [List.map_map] at hp
    have hid : List.map (Prod.fst ∘ fun a => (a, rowCells evs buckets a)) agents
        = agents := by
      have hpt : ∀ a ∈ agents,
          (Prod.fst ∘ fun a => (a, rowCells evs buckets a)) a = a := fun a _ => rfl
      rw [List.map_congr_left hpt]
      exact List.map_id agents
    rw [hid] at hp
    exact hp
  refine ⟨hperm, hperm.nodup_iff.mpr ha, ?_, ?_, ?_, ?_, ?_, ?_⟩
  · intro a hamem
    rw [hdrop]
    unfold withTotalCol
    rw [List.mem_map]
    refine ⟨(a, rowCells evs buckets a), ?_, rfl⟩
    exact (sortRowsDesc_perm _).mem_iff.mpr
      (List.mem_map_of_mem (fun a => (a, rowCells evs buckets a)) hamem)
  · intro r hr
    rw [hdrop] at hr
    unfold withTotalCol at hr
    obtain ⟨s, hs, rfl⟩ := List.mem_map.mp hr
    have hs2 := (sortRowsDesc_perm _).mem_iff.mp hs
    obtain ⟨a, hamem, rfl⟩ := List.mem_map.mp hs2
    refine ⟨rfl, ?_, hamem⟩
    simp [rowCells]
  · intro a i
    unfold rowCells
    rw [List.getElem?_map]
  · intro r _ c _
    exact Nat.zero_le c
  · rw [hdrop]
    unfold withTotalCol
    rw [List.pairwise_map]
    exact pairwise_sortRowsDesc _
  · refine ⟨colSums (withTotalCol
        (sortRowsDesc (agents.map (fun a => (a, rowCells evs buckets a)))))
          (buckets.length + 1), ?_, ?_, ?_⟩
    · rw [hlast]
      rfl
    · unfold colSums
      rw [List.length_map, List.length_range]
    · intro i hi
      rw [hdrop]
      unfold colSums
      rw [List.getElem?_map]
      rw [show (List.range (buckets.length + 1))[i]? = some i from by
        simp [List.getElem?_range, hi]]
      rfl

/-- Witness for C1: at a concrete one-event input, the rollup's data-row
labels are exactly the declared category universe. -/
theorem rollup_table_spec_witness :
    ((df_week_table (bucketize mJun15Noon_2025 [(some mJun10_2025, "deep_research")])
        weekBucketLabels ["deep_research"]).dropLast.map Prod.fst).Perm
      ["deep_research"] :=
  (rollup_table_spec _ weekBucketLabels ["deep_research"] (by decide)).1

/-- C5 (amended): the sum of the body cells of a rollup table equals the
number of events of the filtered input that were assigned a bucket of the
table's universe.  In the trial-relative scheme every event (even one with a
missing timestamp) is assigned a bucket, so there the body sum equals the
full filtered event count; in the rolling scheme events outside the four
windows (or with missing timestamps) are not counted. -/
theorem rollup_body_sum_spec :
    (∀ (evs : List BEvent) (buckets agents : List String),
        buckets.Nodup → agents.Nodup →
        (∀ e ∈ evs, ∀ b : String, e.1 = some b → b ∈ buckets) →
        (∀ e ∈ evs, e.1.isSome = true → e.2 ∈ agents) →
        tableBodySum (df_week_table evs buckets agents)
          = (evs.filter (fun e => e.1.isSome)).length)
    ∧ (∀ (t : Int) (raw : List RawEvent),
        tableBodySum (df_week_table (trialBucketize t raw)
            (observedBuckets (trialBucketize t raw))
            (observedAgents (trialBucketize t raw)))
          = total_events raw) := by
  refine ⟨fun evs buckets agents hb ha h1 h2 =>
      tableBodySum_eq_filter_length evs buckets agents hb ha h1 h2, ?_⟩
  intro t raw
  rw [tableBodySum_eq_filter_length (trialBucketize t raw) _ _
      (by unfold observedBuckets; exact List.nodup_dedup _)
      (by unfold observedAgents; exact List.nodup_dedup _)
      (fun e he b hb => mem_observedBuckets he hb)
      (fun e he hs => mem_observedAgents he hs)]
  have hall : ∀ e ∈ trialBucketize t raw, e.1.isSome = true := by
    intro e he
    unfold trialBucketize at he
    obtain ⟨x, _, rfl⟩ := List.mem_map.mp he
    rfl
  rw [List.filter_eq_self.mpr hall]
  unfold trialBucketize total_events
  rw [List.length_map]

/-- Witness for C5: the amended statement at a concrete rolling-scheme
input. -/
theorem rollup_body_sum_spec_witness :
    tableBodySum (df_week_table
        (bucketize mJun15Noon_2025 [(some mJun10_2025, "normal")])
        weekBucketLabels ["normal"])
      = ((bucketize mJun15Noon_2025 [(some mJun10_2025, "normal")]).filter
          (fun e => e.1.isSome)).length :=
  rollup_body_sum_spec.1 _ weekBucketLabels ["normal"]
    (by decide) (by decide) (by decide) (by decide)

/-- Counterexample to C5 as stated: a filtered input of two events of which
one falls outside all four rolling windows yields a table whose body cells
sum to 1, not to the input event count 2. -/
theorem rollup_body_sum_counterexample :
    tableBodySum (df_week_table
        (bucketize mJun15Noon_2025
          [(some mJun10_2025, "normal"), (some mMay1_2025, "normal")])
        weekBucketLabels
        (observedAgents (bucketize mJun15Noon_2025
          [(some mJun10_2025, "normal"), (some mMay1_2025, "normal")])))
      = 1
    ∧ total_events [((some mJun10_2025 : Option Int), "normal"),
        (some mMay1_2025, "normal")] = 2
    ∧ (1 : Nat) ≠ 2 := by
  refine ⟨by decide, rfl, by decide⟩

/-- C7: the response-time statistics are computed over exactly the valid
values: every number entering the statistics is an input value in
(0, 300000] ms divided by 1000, every such input value enters, and median,
mean and the linear-interpolated 95th percentile are all taken on that
list.  On the input {-5, 150000, 400000, 9000} ms the valid seconds are
[150, 9] and the median is 79.5 s. -/
theorem response_time_stats_spec :
    (∀ (vals : List (Option Int)) (q : ℚ), q ∈ validSecs vals →
        ∃ v : Int, some v ∈ vals ∧ 0 < v ∧ v ≤ 300000 ∧ q = (v : ℚ) / 1000)
    ∧ (∀ (vals : List (Option Int)) (v : Int),
        some v ∈ vals → 0 < v → v ≤ 300000 → ((v : ℚ) / 1000) ∈ validSecs vals)
    ∧ (∀ vals : List (Option Int),
        medianResponseSec vals = medianQ (validSecs vals)
        ∧ meanResponseSec vals = meanQ (validSecs vals)
        ∧ p95ResponseSec vals = quantile95 (validSecs vals))
    ∧ validSecs [some (-5), some 150000, some 400000, some 9000] = [150, 9]
    ∧ medianResponseSec [some (-5), some 150000, some 400000, some 9000]
        = some (79.5 : ℚ) := by
  have hfil : ((([some (-5), some 150000, some 400000, some 9000]
      : List (Option Int)).filterMap id).filter validMs) = [150000, 9000] := by
    decide
  have hex : validSecs [some (-5), some 150000, some 400000, some 9000]
      = [150, 9] := by
    unfold validSecs
    rw [hfil]
    norm_num [List.map]
  refine ⟨?_, ?_, fun vals => ⟨rfl, rfl, rfl⟩, hex, ?_⟩
  · intro vals q hq
    unfold validSecs at hq
    obtain ⟨v, hv, rfl⟩ := List.mem_map.mp hq
    rw [List.mem_filter] at hv
    obtain ⟨hvm, hvval⟩ := hv
    rw [List.mem_filterMap] at hvm
    obtain ⟨o, ho, hoeq⟩ := hvm
    unfold validMs at hvval
    rw [decide_eq_true_eq] at hvval
    refine ⟨v, ?_, hvval.1, hvval.2, rfl⟩
    rw [← hoeq]
    exact ho
  · intro vals v hv h0 h3
    unfold validSecs
    rw [List.mem_map]
    refine ⟨v, ?_, rfl⟩
    rw [List.mem_filter]
    refine ⟨?_, ?_⟩
    · rw [List.mem_filterMap]
      exact ⟨some v, hv, rfl⟩
    · unfold validMs
      rw [decide_eq_true_eq]
      exact ⟨h0, h3⟩
  · unfold medianResponseSec
    rw [hex]
    have hsort : qSortAsc [(150 : ℚ), 9] = [9, 150] := by decide
    unfold medianQ
    rw [hsort]
    norm_num [List.getElem?_cons_zero, List.getElem?_cons_succ]

/-- Witness for C7: a valid 9000 ms value enters the statistics as 9 s. -/
theorem response_time_stats_spec_witness :
    (((9000 : Int) : ℚ) / 1000) ∈ validSecs [some 9000] :=
  response_time_stats_spec.2.1 [some 9000] 9000 (by decide) (by decide) (by decide)

/-- C8: `active_ratio` is computed from the roster alone: it is unchanged
under any change of the event log, its numerator (distinct active roster
users) never exceeds its denominator (distinct roster users), and with no
roster users it renders "0 / 0" instead of faulting. -/
theorem active_ratio_spec (roster : List RosterEntry) (org : String)
    (ev1 ev2 : List RawEvent) :
    active_users roster org ≤ total_users roster org
    ∧ active_ratio ev1 roster org = active_ratio ev2 roster org
    ∧ (total_users roster org = 0 → active_ratio ev1 roster org = "0 / 0") := by
  have hle : active_users roster org ≤ total_users roster org := by
    unfold active_users total_users nuniqueEmails
    have hsub : (((rosterForOrg roster org).filter
        (fun r => r.status == some "active")).filterMap
          (fun r => r.user_email)).dedup
        ⊆ ((rosterForOrg roster org).filterMap (fun r => r.user_email)).dedup := by
      intro x hx
      rw [List.mem_dedup] at hx ⊢
      exact ((List.filter_sublist (rosterForOrg roster org)).filterMap
        (fun r => r.user_email)).subset hx
    exact ((List.nodup_dedup _).subperm hsub).length_le
  refine ⟨hle, rfl, ?_⟩
  intro h0
  have h1 : active_users roster org = 0 := Nat.le_zero.mp (h0 ▸ hle)
  unfold active_ratio
  rw [h0, h1]
  rfl

/-- Witness for C8: the empty roster displays "0 / 0". -/
theorem active_ratio_spec_witness :
    active_ratio ([] : List RawEvent) ([] : List RosterEntry) "acme" = "0 / 0" :=
  (active_ratio_spec [] "acme" [] []).2.2 (by decide)

/-- C9: with a non-empty active event set and a positive active-user count
`a`, the displayed KPI is the sum of per-event saved minutes divided by
`max 1 (floor(day span of the active events / 7))` and by `a`, rounded to
one decimal and suffixed " min"; with no active events or no active users,
the sentinel "—" is displayed instead. -/
theorem saved_kpi_spec (evs : List RawEvent) (a : Nat) :
    (evs ≠ [] → 0 < a →
        saved_display evs a
          = fmt1 (roundHalfEvenTenths ((evs.map (fun e => saved_minutes e.2)).sum
              / ((max 1 ((((((evs.filterMap (fun e => e.1)).max?.getD 0)
                  - ((evs.filterMap (fun e => e.1)).min?.getD 0)).fdiv 1440)).fdiv 7) : Int) : ℚ)
              / (a : ℚ))) ++ " min")
    ∧ ((evs = [] ∨ a = 0) → saved_display evs a = "—") := by
  constructor
  · intro hne ha
    have hb : (evs.isEmpty || a == 0) = false := by
      cases evs with
      | nil => exact absurd rfl hne
      | cons x xs =>
        simp only [List.isEmpty_cons, Bool.false_or, beq_eq_false_iff_ne]
        omega
    unfold saved_display
    rw [hb]
    rfl
  · intro h
    rcases h with rfl | rfl
    · rfl
    · unfold saved_display
      rw [show (evs.isEmpty || (0 : Nat) == 0) = true by simp]
      rfl

/-- Witness for C9: the formula applied to a concrete two-event active set
spanning ten days with two active users. -/
theorem saved_kpi_spec_witness :
    saved_display wSavedEvs 2
      = fmt1 (roundHalfEvenTenths ((wSavedEvs.map (fun e => saved_minutes e.2)).sum
          / ((max 1 ((((((wSavedEvs.filterMap (fun e => e.1)).max?.getD 0)
              - ((wSavedEvs.filterMap (fun e => e.1)).min?.getD 0)).fdiv 1440)).fdiv 7) : Int) : ℚ)
          / ((2 : Nat) : ℚ))) ++ " min" :=
  (saved_kpi_spec wSavedEvs 2).1 (by decide) (by decide)

/-- C10: evaluating the response-time stage fails before producing any
statistic: in every environment whose defined names are among the names the
script actually assigns, the lookup of `df_all` (line 1090) raises a
NameError; moreover `df_all` is assigned nowhere and the column `'id'` read
by the daily aggregation (line 1118) is not a canonical event column. -/
theorem response_stage_undefined_name (env : List (String × List (Option Int)))
    (henv : ∀ p ∈ env, p.1 ∈ scriptFrameNames) :
    responseTimeStage env
        = Except.error "NameError: name df_all is not defined"
    ∧ "df_all" ∉ scriptFrameNames
    ∧ "id" ∉ canonicalEventColumns := by
  refine ⟨?_, by decide, by decide⟩
  cases hfind : env.find? (fun p => p.1 == "df_all") with
  | none =>
    unfold responseTimeStage lookupFrame
    rw [hfind]
    rfl
  | some p =>
    exfalso
    have hp1 := List.find?_some hfind
    simp only [beq_iff_eq] at hp1
    have hmem : p ∈ env := List.mem_of_find?_eq_some hfind
    have := henv p hmem
    rw [hp1] at this
    exact absurd this (by decide)

/-- Witness for C10: the stage errors in the concrete environment holding
only the frames the script defines. -/
theorem response_stage_undefined_name_witness :
    responseTimeStage [("df_usage", [some 5])]
      = Except.error "NameError: name df_all is not defined" :=
  (response_stage_undefined_name [("df_usage", [some 5])] (by decide)).1
